import Mathlib

/-
Verification development for the script-mode training and inference scripts
of the repository (chapter2 notebooks).  The Python scripts embedded in the
notebooks are modelled shallowly: pure glue code becomes Lean functions,
calls into third-party libraries (the HuggingFace pipeline, the model store,
CUDA availability) become explicit parameters, filesystem and environment
interaction becomes an explicit trace of operations, and Python exceptions
become an error type threaded through Except.
-/

/- ### String utilities (models of the Python operators used by the scripts) -/

/-- seqStartsWith hay pat is true when pat is an initial segment of hay. -/
def seqStartsWith : List Char → List Char → Bool
  | _, [] => true
  | [], _ :: _ => false
  | a :: as, b :: bs => a == b && seqStartsWith as bs

/-- seqContains hay pat is true when pat occurs contiguously inside hay. -/
def seqContains (hay pat : List Char) : Bool :=
  (List.range (hay.length + 1)).any (fun i => seqStartsWith (hay.drop i) pat)

/-- Model of the Python membership test pat in hay on strings
(substring containment). -/
def pyIn (pat hay : String) : Bool := seqContains hay.data pat.data

/-- True when s ends with the given ending. -/
def strEndsWith (s ending : String) : Bool :=
  seqStartsWith s.data.reverse ending.data.reverse

/-- Model of os.path.join(dir, file) for a relative file name: a separator
is inserted unless dir is empty or already ends with one. -/
def joinPath (dir file : String) : String :=
  if dir == "" then file
  else if strEndsWith dir "/" then dir ++ file
  else dir ++ "/" ++ file

/- ### Python errors -/

/-- Errors that the modelled script fragments can surface.  typeError is
what CPython raises when a non-callable object is called; jsonDecodeError
models json.JSONDecodeError; osError models a failing load from disk;
pipelineError stands for an arbitrary failure inside the third-party
inference pipeline. -/
inductive PyErr where
  | typeError (msg : String)
  | jsonDecodeError (msg : String)
  | osError (msg : String)
  | pipelineError (msg : String)

/-- In Python, the name NotImplemented denotes the non-callable
NotImplementedType singleton (it is not the exception class
NotImplementedError).  Evaluating NotImplemented(msg) therefore raises
TypeError before the raise statement itself can act, and the intended
message is discarded.  This definition embeds the runtime outcome of the
source lines raise NotImplemented(\x22...\x22) in inference.py; the intended
message is kept as an argument so that the source text stays visible. -/
def raiseNotImplemented (intendedMsg : String) : PyErr :=
  .typeError "\x27NotImplementedType\x27 object is not callable"

/- ### JSON values, serialization and parsing (model of the json module) -/

/-- JSON values.  Numbers are modelled as integers only: the payloads the
scripts exchange (lists of strings, label/score records) do not rely on
non-integral numbers, and floating point is outside the model. -/
inductive Json where
  | null
  | bool (b : Bool)
  | num (n : Int)
  | str (s : String)
  | arr (elems : List Json)
  | obj (fields : List (String × Json))

mutual

/-- Model of json.dumps with the default separators: items are joined by
a comma and a space, object keys are separated from values by a colon and
a space.  String escaping is not modelled (the modelled strings contain no
characters that json.dumps would escape). -/
def json_dumps : Json → String
  | .null => "null"
  | .bool true => "true"
  | .bool false => "false"
  | .num n => toString n
  | .str s => "\"" ++ s ++ "\""
  | .arr es => "[" ++ dumpsItems es ++ "]"
  | .obj fs => "\x7b" ++ dumpsFields fs ++ "\x7d"

/-- Array items of json.dumps, joined by a comma and a space. -/
def dumpsItems : List Json → String
  | [] => ""
  | [e] => json_dumps e
  | e :: e2 :: es => json_dumps e ++ ", " ++ dumpsItems (e2 :: es)

/-- Object fields of json.dumps. -/
def dumpsFields : List (String × Json) → String
  | [] => ""
  | [(k, v)] => "\"" ++ k ++ "\": " ++ json_dumps v
  | (k, v) :: f2 :: fs =>
      "\"" ++ k ++ "\": " ++ json_dumps v ++ ", " ++ dumpsFields (f2 :: fs)

end

/-- JSON whitespace. -/
def isJsonWs (c : Char) : Bool := c == ' ' || c == '\t' || c == '\n' || c == '\r'

/-- Drop leading JSON whitespace. -/
def skipWs : List Char → List Char
  | [] => []
  | c :: cs => if isJsonWs c then skipWs cs else c :: cs

/-- Accumulate a run of decimal digits. -/
def digitsToNat : Nat → List Char → Nat × List Char
  | acc, [] => (acc, [])
  | acc, c :: cs =>
      if c.isDigit then digitsToNat (acc * 10 + (c.toNat - 48)) cs
      else (acc, c :: cs)

/-- Parse an integer token (optional minus sign, then digits).  Fractions
and exponents are outside the model, matching the integral payloads the
scripts use. -/
def parseIntTok : List Char → Option (Int × List Char)
  | [] => none
  | '-' :: cs =>
      match cs with
      | [] => none
      | c :: _ =>
          if c.isDigit then
            match digitsToNat 0 cs with
            | (n, rest) => some (-(n : Int), rest)
          else none
  | c :: cs =>
      if c.isDigit then
        match digitsToNat 0 (c :: cs) with
        | (n, rest) => some ((n : Int), rest)
      else none

/-- Parse the body of a JSON string up to the closing quote.  Escape
sequences are outside the model. -/
def parseStringChars : List Char → Option (List Char × List Char)
  | [] => none
  | '\"' :: rest => some ([], rest)
  | '\\' :: _ => none
  | c :: cs =>
      match parseStringChars cs with
      | none => none
      | some (s, r) => some (c :: s, r)

mutual

/-- Fueled recursive-descent parser for JSON values.  The fuel only bounds
recursion depth; json_loads supplies enough fuel for any input. -/
def parseJsonVal : Nat → List Char → Option (Json × List Char)
  | 0, _ => none
  | fuel + 1, cs =>
      match skipWs cs with
      | 'n' :: 'u' :: 'l' :: 'l' :: rest => some (.null, rest)
      | 't' :: 'r' :: 'u' :: 'e' :: rest => some (.bool true, rest)
      | 'f' :: 'a' :: 'l' :: 's' :: 'e' :: rest => some (.bool false, rest)
      | '\"' :: rest =>
          match parseStringChars rest with
          | none => none
          | some (s, r) => some (.str (String.mk s), r)
      | '[' :: rest =>
          (match skipWs rest with
           | ']' :: rest2 => some (.arr [], rest2)
           | cs2 =>
               match parseJsonItems fuel cs2 with
               | none => none
               | some (es, r) => some (.arr es, r))
      | '\x7b' :: rest =>
          (match skipWs rest with
           | '\x7d' :: rest2 => some (.obj [], rest2)
           | cs2 =>
               match parseJsonFields fuel cs2 with
               | none => none
               | some (fs, r) => some (.obj fs, r))
      | cs2 =>
          match parseIntTok cs2 with
          | none => none
          | some (n, r) => some (.num n, r)

/-- Comma-separated JSON array items, ending at the closing bracket. -/
def parseJsonItems : Nat → List Char → Option (List Json × List Char)
  | 0, _ => none
  | fuel + 1, cs =>
      match parseJsonVal fuel cs with
      | none => none
      | some (v, rest) =>
          match skipWs rest with
          | ',' :: rest2 =>
              (match parseJsonItems fuel rest2 with
               | none => none
               | some (es, r) => some (v :: es, r))
          | ']' :: rest2 => some ([v], rest2)
          | _ => none

/-- Comma-separated JSON object fields, ending at the closing brace. -/
def parseJsonFields : Nat → List Char → Option (List (String × Json) × List Char)
  | 0, _ => none
  | fuel + 1, cs =>
      match skipWs cs with
      | '\"' :: rest =>
          (match parseStringChars rest with
           | none => none
           | some (k, rest2) =>
               match skipWs rest2 with
               | ':' :: rest3 =>
                   (match parseJsonVal fuel rest3 with
                    | none => none
                    | some (v, rest4) =>
                        match skipWs rest4 with
                        | ',' :: rest5 =>
                            (match parseJsonFields fuel rest5 with
                             | none => none
                             | some (fs, r) => some ((String.mk k, v) :: fs, r))
                        | '\x7d' :: rest5 => some ([(String.mk k, v)], rest5)
                        | _ => none)
               | _ => none)
      | _ => none

end

/-- Model of json.loads: parse one JSON value and require that only
whitespace remains. -/
def json_loads (s : String) : Except PyErr Json :=
  match parseJsonVal (s.data.length + 2) s.data with
  | some (v, rest) =>
      if (skipWs rest).isEmpty then Except.ok v
      else Except.error (PyErr.jsonDecodeError "Extra data")
  | none => Except.error (PyErr.jsonDecodeError "Expecting value")

/- ### inference.py : transform_fn -/

/-- Result of one call to transform_fn: the list of payloads on which the
inference pipeline was invoked (in order), and either the serialized
response or the raised error. -/
structure TransformResult where
  pipelineCalls : List Json
  result : Except PyErr String

/-- Shallow embedding of transform_fn(inference_pipeline, data, content_type,
accept_type) from inference.py.  The inference pipeline is the first
argument in the source as well; it is modelled as a fallible function on
the deserialized payload.  Control flow follows the source line by line:
if the content type contains json the payload is deserialized, otherwise
the line raise NotImplemented(...) executes (which in Python raises
TypeError, see raiseNotImplemented); then the pipeline runs; then the
response is serialized when the accept type contains json, otherwise the
second raise NotImplemented(...) line executes. -/
def transform_fn (inference_pipeline : Json → Except PyErr Json)
    (data content_type accept_type : String) : TransformResult :=
  if pyIn "json" content_type then
    match json_loads data with
    | Except.error e => ⟨[], Except.error e⟩
    | Except.ok deser_data =>
        match inference_pipeline deser_data with
        | Except.error e => ⟨[deser_data], Except.error e⟩
        | Except.ok predictions =>
            if pyIn "json" accept_type then
              ⟨[deser_data], Except.ok (json_dumps predictions)⟩
            else
              ⟨[deser_data], Except.error (raiseNotImplemented
                "Only \x27application/json\x27 accept type is supported.")⟩
  else
    ⟨[], Except.error (raiseNotImplemented
      "Only \x27application/json\x27 content type is supported.")⟩

/-- Test for the success constructor of Except. -/
def exceptIsOk : Except PyErr String → Bool
  | Except.ok _ => true
  | Except.error _ => false

/-- A concrete inference pipeline that returns its input, used to evaluate
the embedding at concrete requests. -/
def idPipeline : Json → Except PyErr Json := fun j => Except.ok j

/-- A concrete inference pipeline that always fails, used to evaluate error
propagation at concrete requests. -/
def failPipeline : Json → Except PyErr Json :=
  fun _ => Except.error (PyErr.pipelineError "boom")

/- ### inference.py : model_fn -/

/-- Constant MODEL_NAME from the scripts. -/
def MODEL_NAME : String := "distilbert-base-uncased"

/-- Constant NUM_LABELS from the scripts (number of categories). -/
def NUM_LABELS : Nat := 6

/-- Constant MAX_LENGTH from inference.py (max tokens the model handles). -/
def MAX_LENGTH : Nat := 512

/-- Model configuration; only the field the scripts touch is modelled. -/
structure DistilBertConfig where
  num_labels : Nat

/-- DistilBertConfig() constructs the default configuration, whose
classification head is binary. -/
def DistilBertConfig.default : DistilBertConfig := ⟨2⟩

/-- Model of the attribute assignment config.num_labels = n. -/
def DistilBertConfig.setNumLabels (c : DistilBertConfig) (n : Nat) : DistilBertConfig := ⟨n⟩

/-- A loaded tokenizer, identified by the pretrained checkpoint name. -/
structure DistilBertTokenizerFast where
  pretrained_name : String

/-- Model of DistilBertTokenizerFast.from_pretrained. -/
def DistilBertTokenizerFast.from_pretrained (name : String) : DistilBertTokenizerFast :=
  ⟨name⟩

/-- A loaded classification model: where it was loaded from, the opaque
weights found there, and the configuration it was built with. -/
structure DistilBertForSequenceClassification where
  source : String
  weights : String
  config : DistilBertConfig

/-- Model of DistilBertForSequenceClassification.from_pretrained: the
ambient model store maps a path or checkpoint name to stored weights; the
load succeeds exactly when the store has weights there. -/
def DistilBertForSequenceClassification.from_pretrained
    (store : String → Option String) (path : String) (config : DistilBertConfig) :
    Except PyErr DistilBertForSequenceClassification :=
  match store path with
  | some w => Except.ok ⟨path, w, config⟩
  | none => Except.error (PyErr.osError "can not load weights")

/-- A constructed HuggingFace pipeline object, one field per keyword of the
pipeline(...) call in model_fn. -/
structure Pipeline where
  model : DistilBertForSequenceClassification
  task : String
  tokenizer : DistilBertTokenizerFast
  framework : String
  device : Int
  max_length : Nat
  truncation : Bool

/-- Shallow embedding of model_fn(model_dir) from inference.py.  The two
ambient effects the function consults are parameters: the model store
backing from_pretrained, and CUDA availability.  Control flow follows the
source: pick device 0 when CUDA is available and -1 otherwise, load the
pretrained tokenizer, build a config with num_labels set to NUM_LABELS,
load the model from model_dir, and assemble the text-classification
pipeline. -/
def model_fn (store : String → Option String) (cuda_available : Bool)
    (model_dir : String) : Except PyErr Pipeline :=
  let device_id : Int := if cuda_available then 0 else -1
  let tokenizer := DistilBertTokenizerFast.from_pretrained MODEL_NAME
  let config := (DistilBertConfig.default).setNumLabels NUM_LABELS
  match DistilBertForSequenceClassification.from_pretrained store model_dir config with
  | Except.error e => Except.error e
  | Except.ok model =>
      Except.ok ⟨model, "text-classification", tokenizer, "pt", device_id, MAX_LENGTH, true⟩

/-- A concrete model store holding weights at every path, used to evaluate
model_fn at concrete directories. -/
def storeEx : String → Option String := fun _ => some "weights"

/- ### train.py : CustomDataset -/

/-- A value produced by torch.tensor in CustomDataset.__getitem__: either a
scalar label tensor or a token-id vector. -/
inductive PyTensor where
  | scalar (n : Int)
  | vector (xs : List Int)

/-- Shallow embedding of class CustomDataset(torch.utils.data.Dataset)
from train.py: it stores the tokenizer encodings (a mapping from encoding
key to the per-sample token-id lists) and the labels. -/
structure CustomDataset where
  encodings : List (String × List (List Int))
  labels : List Int

/-- CustomDataset.__getitem__(idx): one tensor per encoding key, plus the
label tensor under the key label. -/
def CustomDataset.getitem (self : CustomDataset) (idx : Nat) : List (String × PyTensor) :=
  self.encodings.map (fun kv => (kv.1, PyTensor.vector (kv.2.getD idx []))) ++
    [("label", PyTensor.scalar (self.labels.getD idx 0))]

/-- CustomDataset.__len__(): the number of labels. -/
def CustomDataset.len (self : CustomDataset) : Nat := self.labels.length

/- ### Notebook cell: CSV dataset export -/

/-- A dataset as returned by fetch_20newsgroups: raw text samples and the
integer category labels. -/
structure NewsDataset where
  data : List String
  target : List Int

/-- One data row written by csv.DictWriter with field names data and
category_id. -/
structure CsvRow where
  data : String
  category_id : Int

/-- The rows written by the inner loop of the export cell: it iterates i
over range(len(train_dataset[data])) and writes train_dataset[data][i] and
train_dataset[target][i].  Note the loop body reads train_dataset only. -/
def exportLoopRows (train_dataset : NewsDataset) : List CsvRow :=
  (List.range train_dataset.data.length).map
    (fun i => ⟨train_dataset.data.getD i "", train_dataset.target.getD i 0⟩)

/-- Shallow embedding of the export cell: for each of the two file names it
opens the file and runs the same inner loop.  The body of the loop refers
to train_dataset for both files, exactly as in the source cell; the
test_dataset argument is never consulted. -/
def export_datasets (train_dataset test_dataset : NewsDataset) :
    List (String × List CsvRow) :=
  [("train_dataset.csv", exportLoopRows train_dataset),
   ("test_dataset.csv", exportLoopRows train_dataset)]

/- ### train.py : argument parsing and the training entry point -/

/-- The parsed hyperparameters, one field per add_argument call of
train.py, in source order. -/
structure Args where
  epochs : Int
  per_device_train_batch_size : Int
  per_device_eval_batch_size : Int
  warmup_steps : Int
  logging_steps : Rat
  weight_decay : Rat

/-- The defaults declared by the add_argument calls. -/
def defaultArgs : Args := ⟨1, 16, 64, 100, 100, (0.01 : Rat)⟩

def Args.setEpochs (a : Args) (v : Int) : Args :=
  ⟨v, a.per_device_train_batch_size, a.per_device_eval_batch_size,
   a.warmup_steps, a.logging_steps, a.weight_decay⟩

def Args.setTrainBatch (a : Args) (v : Int) : Args :=
  ⟨a.epochs, v, a.per_device_eval_batch_size,
   a.warmup_steps, a.logging_steps, a.weight_decay⟩

def Args.setEvalBatch (a : Args) (v : Int) : Args :=
  ⟨a.epochs, a.per_device_train_batch_size, v,
   a.warmup_steps, a.logging_steps, a.weight_decay⟩

def Args.setWarmup (a : Args) (v : Int) : Args :=
  ⟨a.epochs, a.per_device_train_batch_size, a.per_device_eval_batch_size,
   v, a.logging_steps, a.weight_decay⟩

def Args.setLogging (a : Args) (v : Rat) : Args :=
  ⟨a.epochs, a.per_device_train_batch_size, a.per_device_eval_batch_size,
   a.warmup_steps, v, a.weight_decay⟩

def Args.setWeightDecay (a : Args) (v : Rat) : Args :=
  ⟨a.epochs, a.per_device_train_batch_size, a.per_device_eval_batch_size,
   a.warmup_steps, a.logging_steps, v⟩

/-- True when every character is a decimal digit. -/
def allDigits : List Char → Bool
  | [] => true
  | c :: cs => c.isDigit && allDigits cs

/-- Numeric value of a digit run. -/
def digitsVal (cs : List Char) : Nat :=
  cs.foldl (fun acc c => acc * 10 + (c.toNat - 48)) 0

/-- Model of the int() conversion argparse applies to int-typed flag
values: an optional sign followed by a nonempty digit run (underscores and
surrounding whitespace are not modelled). -/
def pyInt (s : String) : Option Int :=
  match s.data with
  | [] => none
  | '-' :: cs =>
      if cs.isEmpty || !(allDigits cs) then none else some (-(digitsVal cs : Int))
  | '+' :: cs =>
      if cs.isEmpty || !(allDigits cs) then none else some ((digitsVal cs : Int))
  | cs => if allDigits cs then some ((digitsVal cs : Int)) else none

/-- Fractional value of the digit run after the decimal point. -/
def fracVal : List Char → Rat
  | [] => 0
  | c :: cs => (((c.toNat - 48 : Nat) : Rat) + fracVal cs) / 10

/-- Split a character list at the first decimal point. -/
def splitAtDot : List Char → List Char × Option (List Char)
  | [] => ([], none)
  | '.' :: cs => ([], some cs)
  | c :: cs =>
      match splitAtDot cs with
      | (a, b) => (c :: a, b)

/-- Unsigned part of the float() conversion model: digits with an optional
fractional part, at least one digit in total. -/
def pyFloatUnsigned (cs : List Char) : Option Rat :=
  match splitAtDot cs with
  | (intPart, none) =>
      if intPart.isEmpty || !(allDigits intPart) then none
      else some ((digitsVal intPart : Rat))
  | (intPart, some fracPart) =>
      if !(allDigits intPart) || !(allDigits fracPart) then none
      else if intPart.isEmpty && fracPart.isEmpty then none
      else some ((digitsVal intPart : Rat) + fracVal fracPart)

/-- Model of the float() conversion argparse applies to float-typed flag
values.  Float values are modelled as exact rationals; exponents, inf and
nan are outside the model. -/
def pyFloat (s : String) : Option Rat :=
  match s.data with
  | '-' :: cs => (pyFloatUnsigned cs).map Neg.neg
  | '+' :: cs => pyFloatUnsigned cs
  | cs => pyFloatUnsigned cs

/-- Parse errors argparse can produce for the declared flags (argparse
exits with status 2 in all three cases; the model keeps them apart:
a declared flag without a usable value, a declared flag whose value does
not convert, and an ambiguous abbreviation). -/
inductive ArgErr where
  | missingValue (flag : String)
  | badValue (flag : String) (val : String)
  | ambiguousOption (name : String)

/-- The six option strings declared by the add_argument calls. -/
def knownFlags : List String :=
  ["--epochs", "--per-device-train-batch-size", "--per-device-eval-batch-size",
   "--warmup-steps", "--logging-steps", "--weight-decay"]

/-- True when the character list begins with a dash. -/
def headIsDash : List Char → Bool
  | [] => false
  | c :: _ => c == '-'

/-- True when the character list begins with two dashes. -/
def startsLong : List Char → Bool
  | c :: c2 :: _ => c == '-' && c2 == '-'
  | _ => false

/-- Model of the argparse test for an option-looking token: it begins with
a dash character. -/
def pyIsOption (tok : String) : Bool := headIsDash tok.data

/-- True when the token is written as a long option (two leading dashes). -/
def isLongOption (tok : String) : Bool := startsLong tok.data

/-- Split an option token at the first equals sign, as argparse does for
the form with an explicit value attached to the option. -/
def splitAtEq : List Char → List Char × Option (List Char)
  | [] => ([], none)
  | '=' :: cs => ([], some cs)
  | c :: cs =>
      match splitAtEq cs with
      | (a, b) => (c :: a, b)

/-- The declared flags an option name matches: an exact match wins, and
otherwise every declared flag of which the name is a prefix matches
(argparse abbreviation, allow_abbrev being left at its default). -/
def matchingFlags (name : String) : List String :=
  if knownFlags.contains name then [name]
  else knownFlags.filter (fun f => seqStartsWith f.data name.data)

/-- Model of the argparse negative-number test: tokens shaped -digits or
-digits.digits (with at least one digit after the point) may serve as a
flag value even though they begin with a dash, because this parser
declares no options that look like negative numbers. -/
def negNumberTok (l : List Char) : Bool :=
  match l with
  | '-' :: cs =>
      (!cs.isEmpty && allDigits cs) ||
      (match splitAtDot cs with
       | (intPart, some fracPart) =>
           allDigits intPart && !fracPart.isEmpty && allDigits fracPart
       | (_, none) => false)
  | _ => false

/-- Convert a value string for the given declared flag with the conversion
the flag declares (int for the first four, float for the last two), and
store the result in the parsed arguments.  none reports a failing
conversion. -/
def applyFlagValue (flag : String) (v : String) (acc : Args) : Option Args :=
  if flag == "--epochs" then (pyInt v).map acc.setEpochs
  else if flag == "--per-device-train-batch-size" then (pyInt v).map acc.setTrainBatch
  else if flag == "--per-device-eval-batch-size" then (pyInt v).map acc.setEvalBatch
  else if flag == "--warmup-steps" then (pyInt v).map acc.setWarmup
  else if flag == "--logging-steps" then (pyFloat v).map acc.setLogging
  else if flag == "--weight-decay" then (pyFloat v).map acc.setWeightDecay
  else none

/-- Model of parser.parse_known_args() for the parser built in the main
guard of train.py.  Tokens are scanned left to right:
a bare double dash ends option parsing and everything from it on is
returned unrecognized; a long-option token is split at its first equals
sign and its name matched against the declared flags exactly or by prefix
abbreviation — no match sends the whole token to the unrecognized list,
an ambiguous abbreviation is an error, and a unique match takes its value
from after the equals sign or else consumes the next token (an error when
that is absent or is itself option-looking and not a negative number, as
in argparse), converting it with the declared int or float conversion (an
error when the conversion fails); every other token — plain words and
single-dash tokens, none of which can match the six declared long flags —
is collected, in order, into the unrecognized list. -/
def parse_known_args : List String → Args → Except ArgErr (Args × List String)
  | [], acc => Except.ok (acc, [])
  | tok :: rest, acc =>
    if tok == "--" then
      Except.ok (acc, tok :: rest)
    else if isLongOption tok then
      match splitAtEq tok.data with
      | (nameChars, valPart) =>
        match matchingFlags (String.mk nameChars) with
        | [] =>
            match parse_known_args rest acc with
            | Except.ok (a, extraToks) => Except.ok (a, tok :: extraToks)
            | Except.error e => Except.error e
        | [flag] =>
            (match valPart with
             | some vChars =>
                 match applyFlagValue flag (String.mk vChars) acc with
                 | some acc2 => parse_known_args rest acc2
                 | none => Except.error (ArgErr.badValue flag (String.mk vChars))
             | none =>
                 match rest with
                 | [] => Except.error (ArgErr.missingValue flag)
                 | v :: rest2 =>
                     if pyIsOption v && !negNumberTok v.data then
                       Except.error (ArgErr.missingValue flag)
                     else
                       match applyFlagValue flag v acc with
                       | some acc2 => parse_known_args rest2 acc2
                       | none => Except.error (ArgErr.badValue flag v))
        | _ => Except.error (ArgErr.ambiguousOption (String.mk nameChars))
    else
      match parse_known_args rest acc with
      | Except.ok (a, extraToks) => Except.ok (a, tok :: extraToks)
      | Except.error e => Except.error e

/-- The SageMaker environment variables train.py consults.  SM_OUTPUT_DIR
is read with os.getenv and a fallback, so it is optional; the other three
are read with os.environ and are required. -/
structure SmEnv where
  SM_CHANNEL_TRAIN : String
  SM_CHANNEL_TEST : String
  SM_MODEL_DIR : String
  SM_OUTPUT_DIR : Option String

/-- The TrainingArguments value train constructs, one field per keyword of
the call. -/
structure TrainingArguments where
  output_dir : String
  num_train_epochs : Int
  per_device_train_batch_size : Int
  per_device_eval_batch_size : Int
  warmup_steps : Int
  weight_decay : Rat
  logging_steps : Rat

/-- Externally visible operations of train.py, in order: file reads,
the Trainer run (third-party, configured by TrainingArguments), and the
final model save. -/
inductive FsOp where
  | readFile (path : String)
  | trainerRun (ta : TrainingArguments)
  | writeModel (path : String)

/-- Shallow embedding of the filesystem interaction of
_get_tokenized_data() from train.py: it reads train_dataset.csv from the
SM_CHANNEL_TRAIN directory and test_dataset.csv from the SM_CHANNEL_TEST
directory (via pd.read_csv of os.path.join); tokenization is in-memory and
leaves no trace. -/
def _get_tokenized_data (env : SmEnv) : List FsOp :=
  [FsOp.readFile (joinPath env.SM_CHANNEL_TRAIN "train_dataset.csv"),
   FsOp.readFile (joinPath env.SM_CHANNEL_TEST "test_dataset.csv")]

/-- Shallow embedding of train(args) from train.py as its trace of
externally visible operations: load the tokenized data, run the Trainer
configured with TrainingArguments built from the parsed hyperparameters
and os.getenv(SM_OUTPUT_DIR, ./), and save the model to SM_MODEL_DIR. -/
def train (env : SmEnv) (args : Args) : List FsOp :=
  _get_tokenized_data env ++
  [FsOp.trainerRun
     ⟨env.SM_OUTPUT_DIR.getD "./", args.epochs, args.per_device_train_batch_size,
      args.per_device_eval_batch_size, args.warmup_steps, args.weight_decay,
      args.logging_steps⟩,
   FsOp.writeModel env.SM_MODEL_DIR]

/-- Shallow embedding of the main guard of train.py: build the parser,
run parse_known_args on the command line (discarding the unrecognized
remainder), and call train with the parsed arguments. -/
def trainScriptMain (env : SmEnv) (argv : List String) : Except ArgErr (List FsOp) :=
  match parse_known_args argv defaultArgs with
  | Except.ok (args, _) => Except.ok (train env args)
  | Except.error e => Except.error e

/-- The paths of the file reads in a trace. -/
def readPaths : List FsOp → List String
  | [] => []
  | FsOp.readFile p :: ops => p :: readPaths ops
  | FsOp.trainerRun _ :: ops => readPaths ops
  | FsOp.writeModel _ :: ops => readPaths ops

/-- The paths of the model saves in a trace. -/
def writeModelPaths : List FsOp → List String
  | [] => []
  | FsOp.writeModel p :: ops => p :: writeModelPaths ops
  | FsOp.readFile _ :: ops => writeModelPaths ops
  | FsOp.trainerRun _ :: ops => writeModelPaths ops

/-- A concrete SageMaker environment (the standard container paths), used
to evaluate the training script model. -/
def smEnvEx : SmEnv :=
  ⟨"/opt/ml/input/data/train", "/opt/ml/input/data/test", "/opt/ml/model",
   some "/opt/ml/output"⟩

/- ### Shared helper lemmas -/

/-- The file reads of the embedded training routine are exactly the two
dataset files in the two channel directories. -/
theorem train_readPaths (env : SmEnv) (args : Args) :
    readPaths (train env args) =
      [joinPath env.SM_CHANNEL_TRAIN "train_dataset.csv",
       joinPath env.SM_CHANNEL_TEST "test_dataset.csv"] := by
  simp [train, _get_tokenized_data, readPaths]

/-- The model saves of the embedded training routine are exactly one save
to the model directory. -/
theorem train_writeModelPaths (env : SmEnv) (args : Args) :
    writeModelPaths (train env args) = [env.SM_MODEL_DIR] := by
  simp [train, _get_tokenized_data, writeModelPaths]

/-- A character list that does not begin with one dash does not begin with
two. -/
theorem startsLong_eq_false (l : List Char) (h : headIsDash l = false) :
    startsLong l = false := by
  cases l with
  | nil => rfl
  | cons c cs =>
      cases cs with
      | nil => rfl
      | cons c2 cs2 =>
          simp only [headIsDash] at h
          simp [startsLong, h]

/-- A token that does not begin with a dash is not a long option. -/
theorem isLongOption_false_of_not_option (tok : String)
    (h : pyIsOption tok = false) : isLongOption tok = false :=
  startsLong_eq_false tok.data h

/-- On a command line none of whose tokens begins with a dash,
parse_known_args keeps the accumulated arguments untouched and returns the
whole command line as the unrecognized remainder. -/
theorem parse_known_args_nonoption (acc : Args) :
    ∀ argv : List String, (∀ tok ∈ argv, pyIsOption tok = false) →
      parse_known_args argv acc = Except.ok (acc, argv) := by
  intro argv
  induction argv with
  | nil => intro _; rfl
  | cons tok rest ih =>
      intro h
      have htok : pyIsOption tok = false := h tok (List.mem_cons_self tok rest)
      have hrest : ∀ t ∈ rest, pyIsOption t = false :=
        fun t ht => h t (List.mem_cons_of_mem tok ht)
      have hsep : (tok == "--") = false :=
        beq_eq_false_iff_ne.mpr (fun he => absurd (he ▸ htok) (by decide))
      have hlong : isLongOption tok = false := isLongOption_false_of_not_option tok htok
      rw [parse_known_args.eq_def]
      simp [hsep, hlong, ih hrest]

/- ### Claim theorems -/

/-- Claim C1: for every call to transform_fn where the payload deserializes
as JSON, the content type contains json, the accept type contains json,
and the pipeline succeeds on the deserialized payload, the function
returns the JSON serialization of the predictions of the pipeline on the
deserialized payload. -/
theorem c1_transform_fn_json_success
    (inference_pipeline : Json → Except PyErr Json)
    (data content_type accept_type : String) (v p : Json)
    (hct : pyIn "json" content_type = true)
    (hat : pyIn "json" accept_type = true)
    (hld : json_loads data = Except.ok v)
    (hp : inference_pipeline v = Except.ok p) :
    (transform_fn inference_pipeline data content_type accept_type).result =
      Except.ok (json_dumps p) := by
  simp [transform_fn, hct, hld, hp, hat]

/-- Claim C1 witness: a concrete JSON request through the identity
pipeline returns its JSON serialization. -/
theorem c1_witness :
    pyIn "json" "application/json" = true ∧
    json_loads "[\"hello\"]" = Except.ok (Json.arr [Json.str "hello"]) ∧
    (transform_fn idPipeline "[\"hello\"]" "application/json" "application/json").result =
      Except.ok "[\"hello\"]" :=
  ⟨rfl, rfl,
   c1_transform_fn_json_success idPipeline "[\"hello\"]" "application/json"
     "application/json" (Json.arr [Json.str "hello"]) (Json.arr [Json.str "hello"])
     rfl rfl rfl rfl⟩

/-- Claim C2 (code bug): on an unsupported content type or accept type the
source line raise NotImplemented(...) executes, but NotImplemented is the
non-callable NotImplementedType singleton, so the call raises TypeError
and the fixed message of the claim is discarded; the raised condition is
not a not-implemented condition carrying the fixed message. -/
theorem c2_code_bug_eval :
    (transform_fn idPipeline "[1]" "text/csv" "application/json").result =
      Except.error (PyErr.typeError "\x27NotImplementedType\x27 object is not callable") ∧
    (transform_fn idPipeline "[1]" "application/json" "text/csv").result =
      Except.error (PyErr.typeError "\x27NotImplementedType\x27 object is not callable") :=
  ⟨rfl, rfl⟩

/-- Claim C3 (code bug): the export cell iterates over train_dataset when
writing both files, so at a concrete input where the two datasets differ,
test_dataset.csv receives the train rows: one row instead of the two test
samples, and the train label instead of the test labels. -/
theorem c3_code_bug_eval :
    export_datasets ⟨["a"], [0]⟩ ⟨["b", "c"], [1, 2]⟩ =
      [("train_dataset.csv", [⟨"a", 0⟩]), ("test_dataset.csv", [⟨"a", 0⟩])] ∧
    (exportLoopRows ⟨["a"], [0]⟩).length = 1 ∧
    (⟨["b", "c"], [1, 2]⟩ : NewsDataset).data.length = 2 :=
  ⟨rfl, rfl, rfl⟩

/-- Claim C4: for every environment and every command line that parses, the
training entry point parses its hyperparameters from the command line,
reads its input data from exactly the two files in the SM_CHANNEL_TRAIN
and SM_CHANNEL_TEST directories, and saves the final model exactly to the
SM_MODEL_DIR directory. -/
theorem c4_train_entry_point (env : SmEnv) (argv : List String)
    (args : Args) (extraToks : List String)
    (h : parse_known_args argv defaultArgs = Except.ok (args, extraToks)) :
    trainScriptMain env argv = Except.ok (train env args) ∧
    readPaths (train env args) =
      [joinPath env.SM_CHANNEL_TRAIN "train_dataset.csv",
       joinPath env.SM_CHANNEL_TEST "test_dataset.csv"] ∧
    writeModelPaths (train env args) = [env.SM_MODEL_DIR] :=
  ⟨by simp [trainScriptMain, h], train_readPaths env args, train_writeModelPaths env args⟩

/-- Claim C4 witness: the entry point at the standard container paths and
the empty command line reads the two channel files and saves the model to
the model directory. -/
theorem c4_witness :
    trainScriptMain smEnvEx [] = Except.ok (train smEnvEx defaultArgs) ∧
    readPaths (train smEnvEx defaultArgs) =
      ["/opt/ml/input/data/train/train_dataset.csv",
       "/opt/ml/input/data/test/test_dataset.csv"] ∧
    writeModelPaths (train smEnvEx defaultArgs) = ["/opt/ml/model"] := by
  exact c4_train_entry_point smEnvEx [] defaultArgs [] rfl

/-- Claim C5: inside transform_fn, with a supported content type, a failure
of json.loads or of the inference pipeline propagates out unmodified: the
function returns exactly the underlying error, and the pipeline-call trace
shows no retry (the pipeline runs at most once). -/
theorem c5_error_propagation (inference_pipeline : Json → Except PyErr Json)
    (data content_type accept_type : String)
    (hct : pyIn "json" content_type = true) :
    (∀ e, json_loads data = Except.error e →
        transform_fn inference_pipeline data content_type accept_type =
          ⟨[], Except.error e⟩) ∧
    (∀ v e, json_loads data = Except.ok v →
        inference_pipeline v = Except.error e →
        transform_fn inference_pipeline data content_type accept_type =
          ⟨[v], Except.error e⟩) := by
  constructor
  · intro e he
    simp [transform_fn, hct, he]
  · intro v e hv he
    simp [transform_fn, hct, hv, he]

/-- Claim C5 witness: a malformed payload surfaces the json decode error
unchanged, and a failing pipeline surfaces its own error unchanged after
exactly one invocation. -/
theorem c5_witness :
    transform_fn idPipeline "oops" "application/json" "application/json" =
      ⟨[], Except.error (PyErr.jsonDecodeError "Expecting value")⟩ ∧
    transform_fn failPipeline "[1]" "application/json" "application/json" =
      ⟨[Json.arr [Json.num 1]], Except.error (PyErr.pipelineError "boom")⟩ :=
  ⟨(c5_error_propagation idPipeline "oops" "application/json" "application/json" rfl).1
      (PyErr.jsonDecodeError "Expecting value") rfl,
   (c5_error_propagation failPipeline "[1]" "application/json" "application/json" rfl).2
      (Json.arr [Json.num 1]) (PyErr.pipelineError "boom") rfl rfl⟩

/-- Claim C6: for every model directory on which the underlying load
succeeds, model_fn returns the text-classification pipeline built from the
model loaded from that directory with a six-label config, the pretrained
tokenizer, the PyTorch framework, the CUDA-dependent device, max length
512 and truncation enabled. -/
theorem c6_model_fn_pipeline (store : String → Option String)
    (cuda_available : Bool) (model_dir w : String)
    (h : store model_dir = some w) :
    model_fn store cuda_available model_dir =
      Except.ok ⟨⟨model_dir, w, ⟨6⟩⟩, "text-classification",
                 ⟨"distilbert-base-uncased"⟩, "pt",
                 (if cuda_available then 0 else -1), 512, true⟩ := by
  simp [model_fn, DistilBertForSequenceClassification.from_pretrained, h,
        DistilBertConfig.default, DistilBertConfig.setNumLabels,
        DistilBertTokenizerFast.from_pretrained, MODEL_NAME, NUM_LABELS, MAX_LENGTH]

/-- Claim C6 witness: at a store holding weights and a concrete directory,
model_fn returns the assembled pipeline. -/
theorem c6_witness :
    model_fn storeEx true "/opt/ml/model" =
      Except.ok ⟨⟨"/opt/ml/model", "weights", ⟨6⟩⟩, "text-classification",
                 ⟨"distilbert-base-uncased"⟩, "pt", 0, 512, true⟩ := by
  exact c6_model_fn_pipeline storeEx true "/opt/ml/model" "weights" rfl

/-- Claim C7 counterexample: the claim that no routine branches and that no
custom data structure exists is false.  Two transform_fn calls that differ
only in the content type take different branches (one succeeds, the other
raises), and CustomDataset is a data structure the repository itself
defines. -/
theorem c7_counterexample :
    exceptIsOk (transform_fn idPipeline "[1]" "application/json" "application/json").result = true ∧
    exceptIsOk (transform_fn idPipeline "[1]" "text/csv" "application/json").result = false ∧
    CustomDataset.len ⟨[("input_ids", [[101]])], [3]⟩ = 1 :=
  ⟨rfl, rfl, rfl⟩

/-- Claim C7 amended: the routines are short call sequences into
third-party libraries but are not all branch-free, and one custom data
structure exists: transform_fn raises whenever the content type lacks
json, the device of the pipeline returned by model_fn is decided by the
conditional on CUDA availability, and the repository-defined CustomDataset
reports the number of labels as its length. -/
theorem c7_amended_branching :
    (∀ (inference_pipeline : Json → Except PyErr Json)
       (data content_type accept_type : String),
        pyIn "json" content_type = false →
        (transform_fn inference_pipeline data content_type accept_type).result =
          Except.error (raiseNotImplemented
            "Only \x27application/json\x27 content type is supported.")) ∧
    (∀ (store : String → Option String) (cuda_available : Bool)
       (model_dir : String) (p : Pipeline),
        model_fn store cuda_available model_dir = Except.ok p →
        p.device = if cuda_available then 0 else -1) ∧
    (∀ ds : CustomDataset, CustomDataset.len ds = ds.labels.length) := by
  refine ⟨?_, ?_, ?_⟩
  · intro inference_pipeline data content_type accept_type hct
    simp [transform_fn, hct]
  · intro store cuda_available model_dir p hp
    cases hstore : store model_dir with
    | none =>
        simp [model_fn, DistilBertForSequenceClassification.from_pretrained, hstore] at hp
    | some w =>
        simp [model_fn, DistilBertForSequenceClassification.from_pretrained, hstore] at hp
        rw [← hp]
  · intro ds
    rfl

/-- Claim C7 amended witness: the content-type branch raises at a concrete
unsupported content type, the device of a concretely loaded pipeline is
the CPU device -1 without CUDA, and a concrete CustomDataset reports its
label count. -/
theorem c7_amended_witness :
    (transform_fn idPipeline "[1]" "text/csv" "application/json").result =
      Except.error (raiseNotImplemented
        "Only \x27application/json\x27 content type is supported.") ∧
    (⟨⟨"/opt/ml/model", "weights", ⟨6⟩⟩, "text-classification",
      ⟨"distilbert-base-uncased"⟩, "pt", -1, 512, true⟩ : Pipeline).device =
      (if false then 0 else -1) ∧
    CustomDataset.len ⟨[], [7, 8]⟩ = ([7, 8] : List Int).length :=
  ⟨c7_amended_branching.1 idPipeline "[1]" "text/csv" "application/json" rfl,
   c7_amended_branching.2.1 storeEx false "/opt/ml/model" _ rfl,
   c7_amended_branching.2.2 ⟨[], [7, 8]⟩⟩

/-- Claim C8 counterexample: the claim that no repository code reads the
exported CSV files is false: at the standard container paths the training
routine reads a file named train_dataset.csv and a file named
test_dataset.csv as its input. -/
theorem c8_counterexample :
    readPaths (train smEnvEx defaultArgs) =
      ["/opt/ml/input/data/train/train_dataset.csv",
       "/opt/ml/input/data/test/test_dataset.csv"] ∧
    strEndsWith "/opt/ml/input/data/train/train_dataset.csv" "train_dataset.csv" = true ∧
    strEndsWith "/opt/ml/input/data/test/test_dataset.csv" "test_dataset.csv" = true :=
  ⟨rfl, rfl, rfl⟩

/-- Claim C8 amended: the CSV export artifact is produced once and
uploaded, and it is consumed again by the repository: for every
environment and parsed arguments, the file reads of the training entry
point are exactly train_dataset.csv from the train channel directory and
test_dataset.csv from the test channel directory. -/
theorem c8_amended_consumed (env : SmEnv) (args : Args) :
    readPaths (train env args) =
      [joinPath env.SM_CHANNEL_TRAIN "train_dataset.csv",
       joinPath env.SM_CHANNEL_TEST "test_dataset.csv"] :=
  train_readPaths env args

/-- Claim C9: when the content type contains json but the accept type does
not, transform_fn still invokes the inference pipeline on the deserialized
payload, and (when the pipeline succeeds) only afterwards fails with the
error of the unsupported-accept-type branch: the model inference side
effect occurs although the request fails. -/
theorem c9_pipeline_runs_before_accept_error
    (inference_pipeline : Json → Except PyErr Json)
    (data content_type accept_type : String) (v : Json)
    (hct : pyIn "json" content_type = true)
    (hat : pyIn "json" accept_type = false)
    (hld : json_loads data = Except.ok v) :
    (transform_fn inference_pipeline data content_type accept_type).pipelineCalls = [v] ∧
    (∀ p, inference_pipeline v = Except.ok p →
        (transform_fn inference_pipeline data content_type accept_type).result =
          Except.error (raiseNotImplemented
            "Only \x27application/json\x27 accept type is supported.")) := by
  constructor
  · cases hp : inference_pipeline v <;> simp [transform_fn, hct, hld, hp, hat]
  · intro p hp
    simp [transform_fn, hct, hld, hp, hat]

/-- Claim C9 witness: a concrete request with a JSON content type and a
plain-text accept type runs the pipeline on the payload and then fails. -/
theorem c9_witness :
    (transform_fn idPipeline "[1]" "application/json" "text/plain").pipelineCalls =
      [Json.arr [Json.num 1]] ∧
    (transform_fn idPipeline "[1]" "application/json" "text/plain").result =
      Except.error (raiseNotImplemented
        "Only \x27application/json\x27 accept type is supported.") :=
  ⟨(c9_pipeline_runs_before_accept_error idPipeline "[1]" "application/json"
      "text/plain" (Json.arr [Json.num 1]) rfl rfl rfl).1,
   (c9_pipeline_runs_before_accept_error idPipeline "[1]" "application/json"
      "text/plain" (Json.arr [Json.num 1]) rfl rfl rfl).2
     (Json.arr [Json.num 1]) rfl⟩

/-- Claim C10 counterexample: the claim that the script proceeds to train()
for every command line is false: a declared flag with a non-numeric value
makes parsing fail before train() is reached. -/
theorem c10_counterexample :
    trainScriptMain smEnvEx ["--epochs", "abc"] =
      Except.error (ArgErr.badValue "--epochs" "abc") :=
  rfl

/-- Claim C10 amended: every hyperparameter has a default (epochs 1, train
batch 16, eval batch 64, warmup steps 100, logging steps 100, weight decay
0.01); the empty command line and any command line none of whose tokens
begins with a dash is parsed by discarding all its tokens into the
unrecognized remainder, and the script proceeds to train() with the
defaults.  But a declared flag is recognized also in its equals form and
by unambiguous prefix abbreviation — such tokens are consumed, not
discarded — and a recognized flag with a non-numeric value fails in
either form, so not every command line reaches train(). -/
theorem c10_amended_parse :
    defaultArgs = (⟨1, 16, 64, 100, 100, (0.01 : Rat)⟩ : Args) ∧
    (∀ argv : List String, (∀ tok ∈ argv, pyIsOption tok = false) →
        parse_known_args argv defaultArgs = Except.ok (defaultArgs, argv)) ∧
    (∀ (env : SmEnv) (argv : List String), (∀ tok ∈ argv, pyIsOption tok = false) →
        trainScriptMain env argv = Except.ok (train env defaultArgs)) ∧
    parse_known_args ["--epochs=5"] defaultArgs =
      Except.ok (defaultArgs.setEpochs 5, []) ∧
    parse_known_args ["--epoch", "7"] defaultArgs =
      Except.ok (defaultArgs.setEpochs 7, []) ∧
    parse_known_args ["--epochs=abc"] defaultArgs =
      Except.error (ArgErr.badValue "--epochs" "abc") ∧
    parse_known_args ["--epochs", "abc"] defaultArgs =
      Except.error (ArgErr.badValue "--epochs" "abc") := by
  refine ⟨rfl, parse_known_args_nonoption defaultArgs, ?_, rfl, rfl, rfl, rfl⟩
  intro env argv h
  simp [trainScriptMain, parse_known_args_nonoption defaultArgs argv h]

/-- Claim C10 amended witness: dash-free tokens are discarded and the
script proceeds to train() with the defaults, both on a command line of
two plain tokens and on the empty one. -/
theorem c10_witness :
    parse_known_args ["foo", "bar"] defaultArgs =
      Except.ok (defaultArgs, ["foo", "bar"]) ∧
    trainScriptMain smEnvEx [] = Except.ok (train smEnvEx defaultArgs) :=
  ⟨c10_amended_parse.2.1 ["foo", "bar"] (by decide),
   c10_amended_parse.2.2.1 smEnvEx [] (by decide)⟩
